import Mathlib

/-!
Verification development for the median-calculation trajectory sampler
(umap-apps): a shallow embedding of `src/median_calculation/run_random_vector.cpp`
and `src/median_calculation/cube.hpp`, with theorems about the embedded code.

Modelling conventions:
- C++ `double`/`float` arithmetic is modelled over `ℚ` (exact rational
  arithmetic); the square root and the final division of the SNR formula,
  which can produce IEEE NaN/infinity, are modelled over a dedicated type
  `DVal` with explicit `nan`/`inf` values and `ℝ` payloads.
- `size_t` / `unsigned long` wrap-around is modelled explicitly as
  arithmetic modulo 2^64.
- A C++ `assert` is modelled by returning `Option`/`Except`: `none`/`.error`
  is the fault branch.
- File input is modelled as the parsed value sequence the `ifstream` loop
  would produce: `none` = environment variable unset, `some none` = file
  configured but unreadable, `some (some l)` = file readable with parsed
  values `l`.
-/

namespace Median

/-- One step of the walker's output sequence as consumed by `vector_info`
(the tuple returned by `iterator.snr_info()`): the pixel value (`none`
models a NaN value, the "no data" marker tested by `is_nan`), the number of
pixels the value aggregates, and the exposure time. -/
structure SnrInfo where
  value : Option ℚ
  num_pixels : ℤ
  exp_time : ℚ
deriving DecidableEq

/-- `double dark_noise = 0.417;` (run_random_vector.cpp:166). -/
def dark_noise : ℚ := 0.417

/-- `double readout_noise = 7;` (run_random_vector.cpp:167). -/
def readout_noise : ℚ := 7

/-- The accumulator variables of `vector_info`
(run_random_vector.cpp:169-175). -/
structure VIAcc where
  total_signal : ℚ
  total_B : ℚ
  total_R : ℚ
  total_D : ℚ
  total_time : ℚ
  frame_num : ℤ
deriving DecidableEq

/-- Initial accumulator state: every total starts at zero. -/
def vi_init : VIAcc := ⟨0, 0, 0, 0, 0, 0⟩

/-- One iteration of the loop body of `vector_info`
(run_random_vector.cpp:177-195): a NaN value is skipped via `continue`;
otherwise the totals are updated. -/
def vi_step (acc : VIAcc) (s : SnrInfo) : VIAcc :=
  match s.value with
  | none => acc
  | some v =>
    { total_signal := acc.total_signal + v
      total_B := acc.total_B + (v / 3) * (s.num_pixels : ℚ)
      total_R := acc.total_R + (s.num_pixels : ℚ) * readout_noise ^ 2 / s.exp_time
      total_D := acc.total_D + dark_noise * (s.num_pixels : ℚ)
      total_time := acc.total_time + s.exp_time
      frame_num := acc.frame_num + 1 }

/-- The full accumulation loop of `vector_info` over the walker's sequence. -/
def vi_acc (steps : List SnrInfo) : VIAcc := steps.foldl vi_step vi_init

/-- `std::round`: rounds to the nearest integer, halfway cases away from
zero (used at cube.hpp:104-105). -/
def cround (q : ℚ) : ℤ :=
  if q < 0 then -⌊-q + 1 / 2⌋ else ⌊q + 1 / 2⌋

/-- Conversion of an integral value to `std::size_t`: arithmetic modulo
2^64 (negative values wrap around). -/
def toSizeT (z : ℤ) : ℕ := (z % 2 ^ 64).toNat

/-- `unsigned long` subtraction `a - b`: wraps modulo 2^64 when `b > a`. -/
def usub64 (a b : ℕ) : ℕ := (((a : ℤ) - (b : ℤ)) % 2 ^ 64).toNat

/-- The fields of `cube<pixel_type>` (cube.hpp:137-147). The external
pixel store `u_cube` is represented by the one capability `get_rnd_coord`
of it that the embedded methods use: resolution of a flat pixel-store
index to an `(x, y, k)` cube coordinate. -/
structure Cube where
  m_size_x : ℕ
  m_size_y : ℕ
  m_size_k : ℕ
  m_image_data : ℕ
  u_rnd_coord : ℕ → ℕ × ℕ × ℕ
  m_timestamp_list : List ℕ
  m_exposuretime_list : List ℚ
  m_psf_list : List ℚ
  m_ra_dec_list : List (List ℚ)
  m_noise_list : List ℚ

/-- The metadata constructor of `cube` (cube.hpp:44-67): stores the sizes,
the image-data pointer and the five metadata lists, then asserts
`m_size_k <= list.size()` for each of the five lists; `none` models a
failed assertion. -/
def cube_mk (size_x size_y size_k : ℕ) (image_data : ℕ)
    (u_rnd_coord : ℕ → ℕ × ℕ × ℕ)
    (timestamp_list : List ℕ) (exposuretime_list : List ℚ)
    (psf_list : List ℚ) (ra_dec_list : List (List ℚ))
    (noise_list : List ℚ) : Option Cube :=
  if size_k ≤ timestamp_list.length ∧ size_k ≤ exposuretime_list.length ∧
      size_k ≤ psf_list.length ∧ size_k ≤ ra_dec_list.length ∧
      size_k ≤ noise_list.length then
    some ⟨size_x, size_y, size_k, image_data, u_rnd_coord, timestamp_list,
          exposuretime_list, psf_list, ra_dec_list, noise_list⟩
  else none

/-- `cube::timestamp(k)` (cube.hpp:109-112): asserts
`k < m_timestamp_list.size()` then returns `m_timestamp_list[k]`;
`none` models the assertion fault. -/
def Cube.timestamp (c : Cube) (k : ℕ) : Option ℕ :=
  c.m_timestamp_list.get? k

/-- `cube::exposuretime(k)` (cube.hpp:114-117). -/
def Cube.exposuretime (c : Cube) (k : ℕ) : Option ℚ :=
  c.m_exposuretime_list.get? k

/-- `cube::psf(k)` (cube.hpp:119-122). -/
def Cube.psf (c : Cube) (k : ℕ) : Option ℚ :=
  c.m_psf_list.get? k

/-- `cube::noise(k)` (cube.hpp:129-132). -/
def Cube.noise (c : Cube) (k : ℕ) : Option ℚ :=
  c.m_noise_list.get? k

/-- `cube::get_rnd_coord(index, x_slope, y_slope)` (cube.hpp:100-107):
resolves the flat index through the pixel store to `(x0, y0, k)`, computes
`time_offset = timestamp(k) - timestamp(0)` (an `unsigned long`
subtraction converted to `double`), and returns
`(size_t)round(x0 - x_slope*time_offset), (size_t)round(y0 - y_slope*time_offset), 0)`.
The two inner `timestamp` calls assert; `none` models their fault. -/
def Cube.get_rnd_coord (c : Cube) (index : ℕ) (x_slope y_slope : ℚ) :
    Option (ℕ × ℕ × ℕ) :=
  let intercept := c.u_rnd_coord index
  let k := intercept.2.2
  match c.timestamp k, c.timestamp 0 with
  | some tk, some t0 =>
    let time_offset : ℚ := (usub64 tk t0 : ℕ)
    let x := toSizeT (cround ((intercept.1 : ℚ) - x_slope * time_offset))
    let y := toSizeT (cround ((intercept.2.1 : ℚ) - y_slope * time_offset))
    some (x, y, 0)
  | _, _ => none

/-- A double-precision value that can be NaN or infinite: result type of the
SNR expression, which divides by a square root that can be zero and takes
square roots of possibly negative accumulated totals. -/
inductive DVal
| nan
| inf
| num (x : ℝ)

/-- IEEE-style square root of a (rationally represented) double: NaN on
negative input. -/
noncomputable def dsqrt (q : ℚ) : DVal :=
  if q < 0 then .nan else .num (Real.sqrt (q : ℝ))

/-- IEEE-style product: NaN absorbs; `inf * 0` is NaN (sign of infinity is
not tracked, no claim depends on it). -/
noncomputable def dmul : DVal → DVal → DVal
  | .nan, _ => .nan
  | _, .nan => .nan
  | .inf, .inf => .inf
  | .inf, .num x => if x = 0 then .nan else .inf
  | .num x, .inf => if x = 0 then .nan else .inf
  | .num a, .num b => .num (a * b)

/-- IEEE-style quotient: NaN absorbs; `0 / 0` and `inf / inf` are NaN; a
nonzero finite number divided by zero is infinite (sign not tracked). -/
noncomputable def ddiv : DVal → DVal → DVal
  | .nan, _ => .nan
  | _, .nan => .nan
  | .inf, .inf => .nan
  | .inf, .num _ => .inf
  | .num _, .inf => .num 0
  | .num a, .num b => if b = 0 then (if a = 0 then .nan else .inf) else .num (a / b)

/-- The SNR expression of run_random_vector.cpp:197:
`SNR = total_signal*sqrt(total_time)/sqrt(total_signal + total_B + total_D + total_R)`. -/
noncomputable def snr_value (a : VIAcc) : DVal :=
  ddiv (dmul (.num (a.total_signal : ℝ)) (dsqrt a.total_time))
       (dsqrt (a.total_signal + a.total_B + a.total_D + a.total_R))

/-- `vector_info` (run_random_vector.cpp:157-200): returns
`(SNR, total_signal, frame_num)`; an empty sequence
(`iterator_begin == iterator_end`) returns `(0, 0, 0)` before the loop. -/
noncomputable def vector_info (steps : List SnrInfo) : DVal × ℚ × ℤ :=
  if steps = [] then (.num 0, 0, 0)
  else (snr_value (vi_acc steps), (vi_acc steps).total_signal, (vi_acc steps).frame_num)

/-- A configured metadata file, as the `ifstream` loop of the loaders sees
it: `none` = environment variable unset, `some none` = configured but the
file cannot be opened, `some (some l)` = readable with parsed values `l`. -/
abbrev MetaFile := Option (Option (List ℚ))

/-- `read_timestamp` (run_random_vector.cpp:74-98): if `TIMESTAMP_FILE` is
set, abort when it cannot be opened or when the number of parsed values
differs from `size_k`; otherwise the default list is `i * 1.0`. `.error`
models `std::abort()` with the message written to `stderr`. -/
def read_timestamp (size_k : ℕ) (file : MetaFile) : Except String (List ℚ) :=
  match file with
  | none => .ok ((List.range size_k).map (fun i : ℕ => (i : ℚ) * 1))
  | some none => .error "Cannot open TIMESTAMP_FILE"
  | some (some l) =>
    if l.length ≠ size_k then
      .error "#of lines in TIMESTAMP_FILE is not the same as #of fits files"
    else .ok l

/-- `read_exposuretime` (run_random_vector.cpp:100-124): same shape; the
default exposure time is 40 seconds per frame. -/
def read_exposuretime (size_k : ℕ) (file : MetaFile) : Except String (List ℚ) :=
  match file with
  | none => .ok ((List.range size_k).map (fun _ : ℕ => (40 : ℚ)))
  | some none => .error "Cannot open EXPOSURETIME_FILE"
  | some (some l) =>
    if l.length ≠ size_k then
      .error "#of lines in EXPOSURETIME_FILE is not the same as #of fits files"
    else .ok l

/-- `read_psf` (run_random_vector.cpp:126-150): same shape; the default
PSF is 1.0 per frame. -/
def read_psf (size_k : ℕ) (file : MetaFile) : Except String (List ℚ) :=
  match file with
  | none => .ok ((List.range size_k).map (fun _ : ℕ => (1 : ℚ)))
  | some none => .error "Cannot open PSF_FILE"
  | some (some l) =>
    if l.length ≠ size_k then
      .error "#of lines in PSF_FILE is not the same as #of fits files"
    else .ok l

/-- The kind of slope distribution a variable of the shooting loop denotes:
either `beta_distribution(3, 2)` or `custom_distribution(filename)`. -/
inductive SlopeDistKind
| beta (alpha bet : ℚ)
| custom (filename : String)
deriving DecidableEq

/-- A block scope: the local variables it declares, innermost first. -/
abbrev Scope := List (String × SlopeDistKind)

/-- A stack of block scopes, innermost first. -/
abbrev Env := List Scope

/-- Declaring a local variable adds it to the innermost open scope. -/
def declareVar (e : Env) (n : String) (v : SlopeDistKind) : Env :=
  match e with
  | [] => [[(n, v)]]
  | s :: rest => ((n, v) :: s) :: rest

/-- Name resolution searches the scopes from innermost to outermost. -/
def lookupVar (e : Env) (n : String) : Option SlopeDistKind :=
  match e with
  | [] => none
  | s :: rest =>
    match s.lookup n with
    | some v => some v
    | none => lookupVar rest n

/-- The C++ block-scope structure of run_random_vector.cpp:224-236.
Line 225 declares `beta_distribution slope_distribution(3, 2);` in the
enclosing block. Lines 226-227 are an `if` statement whose body is the
single declaration `custom_distribution slope_distribution(slope_filename);`:
that declaration lives in the scope of the `if` body, which is opened for
the body and closed as soon as the statement ends, destroying the inner
variable. The result is the distribution the call `slope_distribution()`
at line 236 resolves to. -/
def slope_distribution_in_scope (slope_filename : Option String) :
    Option SlopeDistKind :=
  let env : Env := declareVar [[]] "slope_distribution" (.beta 3 2)
  let env : Env :=
    match slope_filename with
    | some f => List.tail (declareVar ([] :: env) "slope_distribution" (.custom f))
    | none => env
  lookupVar env "slope_distribution"

/-- Modelled from the spec: the intended slope-distribution selection —
"optional path to an empirical slope-distribution file (defaults to the
bounded parametric distribution)"; the empirical variant is used whenever
`SLOPE_PDF_FILE` is configured. -/
def spec_slope_selection (slope_filename : Option String) : SlopeDistKind :=
  match slope_filename with
  | some f => .custom f
  | none => .beta 3 2

/-- Modelled from the spec: the Trajectory value type `vector_xy`
(`(x_slope, x_intercept, y_slope, y_intercept)`, all real-valued);
`vector.hpp` is not under `src/`. -/
structure VectorXY where
  x_slope : ℚ
  x_intercept : ℚ
  y_slope : ℚ
  y_intercept : ℚ
deriving DecidableEq

/-- `std::uniform_int_distribution<int>(lo, hi)` applied to one raw draw of
the engine: a value in `[lo, hi]` (modelled as `lo + raw mod (hi-lo+1)`,
which realises the library's contract of returning a uniform member of the
closed range). -/
def uniform_int (lo hi : ℤ) (raw : ℕ) : ℤ :=
  lo + ((raw : ℤ) % (hi - lo + 1))

/-- Per-worker sampling environment of the shooting loop: the stream of
slope pairs produced by `slope_distribution()`, the raw draws of
`rnd_engine` feeding the two `uniform_int_distribution`s, and the walker
(`cube_iterator_with_vector`, not under `src/`; modelled from the spec as
producing the per-frame `snr_info` sequence of a trajectory). -/
structure WorkerEnv where
  slope_draw : ℕ → ℚ × ℚ
  x_raw : ℕ → ℕ
  y_raw : ℕ → ℕ
  walk : VectorXY → List SnrInfo

/-- One iteration of the shooting loop (run_random_vector.cpp:234-252):
draw the slopes, draw the intercepts uniformly from `[0, size_x-1]` and
`[0, size_y-1]`, build the trajectory, run `vector_info` over the walker's
sequence, and store `(vector, SNR, sum, frames)`. -/
noncomputable def shoot_draw (c : Cube) (w : WorkerEnv) (i : ℕ) :
    VectorXY × DVal × ℚ × ℤ :=
  let slopes := w.slope_draw i
  let x_intercept : ℚ := (uniform_int 0 ((c.m_size_x : ℤ) - 1) (w.x_raw i) : ℤ)
  let y_intercept : ℚ := (uniform_int 0 ((c.m_size_y : ℤ) - 1) (w.y_raw i) : ℤ)
  let v : VectorXY := ⟨slopes.1, x_intercept, slopes.2, y_intercept⟩
  let vinfo := vector_info (w.walk v)
  (v, vinfo.1, vinfo.2.1, vinfo.2.2)

/-- `shoot_vector`'s result collection (run_random_vector.cpp:203-257):
pre-sized to `num_random_vector`; the loop writes `result[i]` for every
index `i` in `0..N-1` exactly once. -/
noncomputable def shoot_vector (c : Cube) (num_random_vector : ℕ)
    (w : WorkerEnv) : List (VectorXY × DVal × ℚ × ℤ) :=
  (List.range num_random_vector).map (shoot_draw c w)

/-- The header line written by `write_tocsv` (run_random_vector.cpp:304). -/
def csv_header : String :=
  "ID,X_INTERCEPT,Y_INTERCEPT,X_SLOPE,Y_SLOPE,SNR,SUM,NUMBER_OF_FRAMES_HIT"

/-- One emitted catalog row (run_random_vector.cpp:309-317): the id counter
followed by the trajectory's intercepts and slopes, the SNR, the sum and
the number of frames hit. -/
structure CsvRow where
  id : ℕ
  x_intercept : ℚ
  y_intercept : ℚ
  x_slope : ℚ
  y_slope : ℚ
  snr : DVal
  sum : ℚ
  frames : ℤ

/-- `write_tocsv` (run_random_vector.cpp:301-320): one row per result
entry, with `id` starting at 0 and incremented once per row. -/
noncomputable def write_tocsv (result : List (VectorXY × DVal × ℚ × ℤ)) :
    List CsvRow :=
  result.enum.map (fun p =>
    ⟨p.1, p.2.1.x_intercept, p.2.1.y_intercept, p.2.1.x_slope,
     p.2.1.y_slope, p.2.2.1, p.2.2.2.1, p.2.2.2.2⟩)

/-- `main`'s configuration-then-shoot pipeline (run_random_vector.cpp:
322-350): the three metadata loaders run while building the `cube`, before
`shoot_vector`; any loader abort terminates the process with no catalog. -/
noncomputable def main_run (c : Cube) (tf ef pf : MetaFile) (n : ℕ)
    (w : WorkerEnv) : Except String (List CsvRow) := do
  let _ts ← read_timestamp c.m_size_k tf
  let _es ← read_exposuretime c.m_size_k ef
  let _ps ← read_psf c.m_size_k pf
  .ok (write_tocsv (shoot_vector c n w))

/-- An event of the unsynchronized compound assignment
`total_execution_time += utility::elapsed_time_sec(start);`
(run_random_vector.cpp:252) executed by one of two workers inside the
OpenMP parallel region: the read of the shared accumulator into a local,
or the write of `local + contribution` back. -/
inductive RmwEv
| read (worker : Bool)
| write (worker : Bool)
deriving DecidableEq

/-- The state of the shared counter and each worker's local read. -/
structure RaceState where
  shared : ℚ
  local0 : ℚ
  local1 : ℚ

/-- Effect of one event: a plain (non-atomic) `+=` is a read of the shared
double followed, possibly much later, by a write of `local + t`. -/
def rmw_step (t0 t1 : ℚ) (st : RaceState) (e : RmwEv) : RaceState :=
  match e with
  | .read false => { st with local0 := st.shared }
  | .read true => { st with local1 := st.shared }
  | .write false => { st with shared := st.local0 + t0 }
  | .write true => { st with shared := st.local1 + t1 }

/-- Final value of the shared counter after an interleaving of the two
workers' read/write pairs, starting from `total_execution_time = 0.0`. -/
def run_plain_accum (t0 t1 : ℚ) (sched : List RmwEv) : ℚ :=
  (sched.foldl (rmw_step t0 t1) ⟨0, 0, 0⟩).shared

/-- A schedule is a legal interleaving of the two workers' `+=` when it
consists of each worker's read and write exactly once, with each worker's
read before its own write (program order). -/
def valid_schedule (s : List RmwEv) : Bool :=
  s.length = 4 && s.contains (.read false) && s.contains (.read true) &&
  s.contains (.write false) && s.contains (.write true) &&
  decide (s.indexOf (.read false) < s.indexOf (.write false)) &&
  decide (s.indexOf (.read true) < s.indexOf (.write true))

/-- Componentwise sum of two accumulator states (proof helper). -/
def vi_add (a b : VIAcc) : VIAcc :=
  ⟨a.total_signal + b.total_signal, a.total_B + b.total_B, a.total_R + b.total_R,
   a.total_D + b.total_D, a.total_time + b.total_time, a.frame_num + b.frame_num⟩

/-- The contribution of one data step with value `v`, pixel count `n` and
exposure `e` to the accumulator, exactly as the loop body adds it. -/
def vi_one (v : ℚ) (n : ℤ) (e : ℚ) : VIAcc :=
  ⟨v, v / 3 * (n : ℚ), (n : ℚ) * readout_noise ^ 2 / e, dark_noise * (n : ℚ), e, 1⟩

/-- The data steps of a walker sequence — the steps whose value is not the
NaN marker — as `(value, pixel count, exposure)` triples, in order. -/
def data_steps (steps : List SnrInfo) : List (ℚ × ℤ × ℚ) :=
  steps.filterMap (fun s => s.value.map (fun v => (v, s.num_pixels, s.exp_time)))

/-- The spec's description of the accumulation, as closed-form sums over
the data steps: `total_signal = Σ v`, `B = Σ (v/3)·n`, `R = Σ n·7²/e`,
`D = Σ 0.417·n`, `total_exposure = Σ e`, `frames_hit` = number of data
steps. To be compared with the loop `vi_acc` embedded from the source. -/
def vi_spec_sums (steps : List SnrInfo) : VIAcc :=
  ⟨((data_steps steps).map (fun p => p.1)).sum,
   ((data_steps steps).map (fun p => p.1 / 3 * (p.2.1 : ℚ))).sum,
   ((data_steps steps).map (fun p => (p.2.1 : ℚ) * readout_noise ^ 2 / p.2.2)).sum,
   ((data_steps steps).map (fun p => dark_noise * (p.2.1 : ℚ))).sum,
   ((data_steps steps).map (fun p => p.2.2)).sum,
   (data_steps steps).length⟩

/-- A small concrete cube used to evaluate the embedded code: 4×4×2, with
timestamps `[0, 100]` (hundredths of a second) and a pixel store whose
index resolution always lands on coordinate `(0, 0)` of frame 1. -/
def demo_cube : Cube :=
  ⟨4, 4, 2, 0, fun _ => (0, 0, 1), [0, 100], [40, 40], [1, 1], [[], []], [0, 0]⟩

/-- A concrete worker environment: constant zero slopes, fixed raw RNG
outputs, and a walker that sees no frames. -/
def demo_worker : WorkerEnv :=
  ⟨fun _ => (0, 0), fun _ => 7, fun _ => 9, fun _ => []⟩

/-! ## Lemmas about the accumulation loop -/

lemma vi_add_init (a : VIAcc) : vi_add a vi_init = a := by
  cases a; simp [vi_add, vi_init]

lemma init_vi_add (a : VIAcc) : vi_add vi_init a = a := by
  cases a; simp [vi_add, vi_init]

lemma vi_add_assoc (a b c : VIAcc) : vi_add (vi_add a b) c = vi_add a (vi_add b c) := by
  simp [vi_add, add_assoc]

lemma vi_step_none (a : VIAcc) (s : SnrInfo) (h : s.value = none) :
    vi_step a s = a := by
  simp [vi_step, h]

lemma vi_step_some (a : VIAcc) (s : SnrInfo) (v : ℚ) (h : s.value = some v) :
    vi_step a s = vi_add a (vi_one v s.num_pixels s.exp_time) := by
  cases a; simp [vi_step, h, vi_add, vi_one]

lemma vi_spec_sums_nil : vi_spec_sums [] = vi_init := by
  simp [vi_spec_sums, data_steps, vi_init]

lemma vi_spec_sums_cons_none (s : SnrInfo) (rest : List SnrInfo)
    (h : s.value = none) : vi_spec_sums (s :: rest) = vi_spec_sums rest := by
  simp [vi_spec_sums, data_steps, List.filterMap_cons, h]

lemma vi_spec_sums_cons_some (s : SnrInfo) (rest : List SnrInfo) (v : ℚ)
    (h : s.value = some v) :
    vi_spec_sums (s :: rest) =
      vi_add (vi_one v s.num_pixels s.exp_time) (vi_spec_sums rest) := by
  simp [vi_spec_sums, data_steps, List.filterMap_cons, h, vi_add, vi_one, add_comm]

lemma foldl_vi_step (steps : List SnrInfo) :
    ∀ a : VIAcc, steps.foldl vi_step a = vi_add a (vi_spec_sums steps) := by
  induction steps with
  | nil => intro a; simp [vi_spec_sums_nil, vi_add_init]
  | cons s rest ih =>
    intro a
    cases hv : s.value with
    | none =>
      rw [List.foldl_cons, vi_step_none a s hv, ih, vi_spec_sums_cons_none s rest hv]
    | some v =>
      rw [List.foldl_cons, vi_step_some a s v hv, ih,
          vi_spec_sums_cons_some s rest v hv, vi_add_assoc]

lemma vi_acc_eq_sums (steps : List SnrInfo) : vi_acc steps = vi_spec_sums steps := by
  rw [vi_acc, foldl_vi_step, init_vi_add]

lemma snr_value_init : snr_value vi_init = DVal.nan := by
  have h0 : ¬((0 : ℚ) < 0) := lt_irrefl 0
  simp [snr_value, vi_init, dsqrt, dmul, ddiv, h0, Real.sqrt_zero]

/-! ## Claim theorems -/

/-- Claim C2, corrected. The empty sequence (`size_k = 0`) short-circuits
to `(0, 0, 0)` before the SNR division; but a non-empty sequence in which
every step is "no data" reaches the division `0·√0/√0` and returns
`(NaN, 0, 0)`: the guard of `vector_info` compares the iterators, not
`frames_hit`. -/
theorem vector_info_no_data_result :
    vector_info ([] : List SnrInfo) = (DVal.num 0, 0, 0) ∧
    ∀ steps : List SnrInfo, steps ≠ [] → (∀ s ∈ steps, s.value = none) →
      vector_info steps = (DVal.nan, 0, 0) := by
  constructor
  · simp [vector_info]
  · intro steps hne hall
    have hds : data_steps steps = [] := by
      rw [data_steps, List.filterMap_eq_nil_iff]
      intro s hs
      rw [hall s hs]
      rfl
    have hsum : vi_spec_sums steps = vi_init := by
      simp [vi_spec_sums, hds, vi_init]
    simp only [vector_info, if_neg hne, vi_acc_eq_sums, hsum, snr_value_init]
    rfl

/-- Witness for C2: a one-step all-no-data sequence evaluated concretely. -/
theorem vector_info_no_data_result_witness :
    vector_info [⟨none, 2, 5⟩] = (DVal.nan, 0, 0) :=
  vector_info_no_data_result.2 [⟨none, 2, 5⟩] (by decide) (by decide)

/-- Counterexample to C2 as stated: for the non-empty sequence whose single
step is "no data", `vector_info` returns SNR = NaN (the division is
performed on all-zero totals), not the claimed `(0, 0, 0)`. -/
theorem vector_info_all_nodata_counterexample :
    vector_info [⟨none, 1, 40⟩] = (DVal.nan, 0, 0) ∧ DVal.nan ≠ DVal.num 0 := by
  constructor
  · have hne : ([⟨none, 1, 40⟩] : List SnrInfo) ≠ [] := by simp
    have hacc : vi_acc [⟨none, 1, 40⟩] = vi_init := rfl
    simp only [vector_info, if_neg hne, hacc, snr_value_init]
    rfl
  · intro h
    exact DVal.noConfusion h

/-- Claim C3: over any sequence with at least one data step, `vector_info`
skips the NaN steps and accumulates `total_signal`, `frames_hit`, `B`, `R`,
`D` and `total_exposure` as the per-data-step sums, returning the SNR
formula applied to those totals together with `total_signal` and
`frames_hit`. -/
theorem vector_info_data_accumulation (steps : List SnrInfo)
    (h : ∃ s ∈ steps, s.value ≠ none) :
    vector_info steps =
      (snr_value (vi_spec_sums steps), (vi_spec_sums steps).total_signal,
       (vi_spec_sums steps).frame_num) := by
  have hne : steps ≠ [] := by
    rintro rfl
    obtain ⟨s, hs, _⟩ := h
    exact absurd hs (List.not_mem_nil s)
  simp only [vector_info, if_neg hne, vi_acc_eq_sums]

/-- Witness for C3: three data steps of value 10 with `n = 1`, `e = 40`
give `total_signal = 30`, `frames_hit = 3`, per-step `B = 10/3`,
`D = 0.417`, `R = 49/40`, and the closed-form SNR
`30·√120/√(30 + 10 + 3·0.417 + 3·49/40)`. -/
theorem vector_info_data_accumulation_witness :
    vector_info [⟨some 10, 1, 40⟩, ⟨some 10, 1, 40⟩, ⟨some 10, 1, 40⟩] =
      (snr_value ⟨30, 3 * (10 / 3), 3 * (49 / 40), 3 * (417 / 1000), 120, 3⟩, 30, 3) ∧
    snr_value ⟨30, 3 * (10 / 3), 3 * (49 / 40), 3 * (417 / 1000), 120, 3⟩ =
      DVal.num (30 * Real.sqrt 120 /
        Real.sqrt (30 + 3 * (10 / 3) + 3 * (417 / 1000) + 3 * (49 / 40))) := by
  constructor
  · have h := vector_info_data_accumulation
      [⟨some 10, 1, 40⟩, ⟨some 10, 1, 40⟩, ⟨some 10, 1, 40⟩]
      ⟨⟨some 10, 1, 40⟩, List.mem_cons_self _ _, by simp⟩
    have e : vi_spec_sums [⟨some 10, 1, 40⟩, ⟨some 10, 1, 40⟩, ⟨some 10, 1, 40⟩] =
        ⟨30, 3 * (10 / 3), 3 * (49 / 40), 3 * (417 / 1000), 120, 3⟩ := by
      simp only [vi_spec_sums, data_steps, List.filterMap_cons, Option.map_some]
      norm_num [readout_noise, dark_noise]
    rw [h, e]
  · have hpos : (0 : ℝ) < ((30 + 3 * (10 / 3) + 3 * (417 / 1000) + 3 * (49 / 40) : ℚ) : ℝ) := by
      norm_num
    have hden : Real.sqrt ((30 + 3 * (10 / 3) + 3 * (417 / 1000) + 3 * (49 / 40) : ℚ) : ℝ) ≠ 0 :=
      Real.sqrt_ne_zero'.mpr hpos
    simp only [snr_value, dsqrt]
    norm_num [dmul, ddiv, hden]

/-- Claim C1, code bug. Even with `SLOPE_PDF_FILE` configured, the
distribution the draw at line 236 resolves to is still `beta(3, 2)`: the
`custom_distribution` declared inside the `if` statement at line 227 is a
new inner-scope variable that is destroyed when the statement ends, not a
rebinding of the outer `slope_distribution`. The spec-modelled selection
(`spec_slope_selection`) picks the empirical distribution instead. -/
theorem slope_distribution_scoping_bug :
    slope_distribution_in_scope (some "slopes.txt") = some (.beta 3 2) ∧
    spec_slope_selection (some "slopes.txt") = .custom "slopes.txt" ∧
    SlopeDistKind.beta 3 2 ≠ SlopeDistKind.custom "slopes.txt" := by
  refine ⟨rfl, rfl, ?_⟩
  intro h
  exact SlopeDistKind.noConfusion h

/-- Claim C4, code bug. The schedule in which both workers read the shared
timing counter before either writes is a legal interleaving of the plain
`+=` at line 252 (each worker's read precedes its own write), and under it
the counter ends at 2, losing worker 0's contribution: the final value is
not the sum 1 + 2 that an atomic accumulation or a per-worker-then-reduce
pattern would guarantee. -/
theorem timing_counter_lost_update :
    valid_schedule [.read false, .read true, .write false, .write true] = true ∧
    run_plain_accum 1 2 [.read false, .read true, .write false, .write true] = 2 ∧
    (2 : ℚ) ≠ 1 + 2 := by
  refine ⟨by decide, ?_, by norm_num⟩
  norm_num [run_plain_accum, rmw_step]

/-- Claim C5: a cube built through the metadata constructor with every
list at least `size_k` long passes the constructor's assertions, and for
`k < size_k` each per-frame accessor's assertion holds and the accessor
returns the k-th element of its list. -/
theorem cube_metadata_accessors (size_x size_y size_k image_data : ℕ)
    (rnd : ℕ → ℕ × ℕ × ℕ) (ts : List ℕ) (es ps : List ℚ) (ras : List (List ℚ))
    (ns : List ℚ)
    (hts : size_k ≤ ts.length) (hes : size_k ≤ es.length) (hps : size_k ≤ ps.length)
    (hras : size_k ≤ ras.length) (hns : size_k ≤ ns.length)
    (k : ℕ) (hk : k < size_k) :
    ∃ c : Cube,
      cube_mk size_x size_y size_k image_data rnd ts es ps ras ns = some c ∧
      c.timestamp k = some (ts.get ⟨k, lt_of_lt_of_le hk hts⟩) ∧
      c.exposuretime k = some (es.get ⟨k, lt_of_lt_of_le hk hes⟩) ∧
      c.psf k = some (ps.get ⟨k, lt_of_lt_of_le hk hps⟩) ∧
      c.noise k = some (ns.get ⟨k, lt_of_lt_of_le hk hns⟩) := by
  refine ⟨⟨size_x, size_y, size_k, image_data, rnd, ts, es, ps, ras, ns⟩, ?_, ?_, ?_, ?_, ?_⟩
  · unfold cube_mk
    rw [if_pos ⟨hts, hes, hps, hras, hns⟩]
  · exact List.get?_eq_get (lt_of_lt_of_le hk hts)
  · exact List.get?_eq_get (lt_of_lt_of_le hk hes)
  · exact List.get?_eq_get (lt_of_lt_of_le hk hps)
  · exact List.get?_eq_get (lt_of_lt_of_le hk hns)

/-- Witness for C5: a concrete 1-frame cube where every accessor returns
the stored metadata value. -/
theorem cube_metadata_accessors_witness :
    ∃ c : Cube,
      cube_mk 4 4 1 0 (fun _ => (0, 0, 0)) [5] [2] [3] [[]] [7] = some c ∧
      c.timestamp 0 = some 5 ∧ c.exposuretime 0 = some 2 ∧
      c.psf 0 = some 3 ∧ c.noise 0 = some 7 := by
  have h := cube_metadata_accessors 4 4 1 0 (fun _ => (0, 0, 0)) [5] [2] [3] [[]] [7]
    (by norm_num) (by norm_num) (by norm_num) (by norm_num) (by norm_num) 0 (by norm_num)
  simpa using h

/-- If the parsed list has the wrong length, the loader's shared check
`if (list.size() != size_k) abort` yields the error, never a truncated
`.ok` (proof helper for the three loaders). -/
lemma loader_ok_length (size_k : ℕ) (l r : List ℚ) (msg : String)
    (h : (if l.length ≠ size_k then Except.error msg else Except.ok l) =
      Except.ok r) : r.length = size_k := by
  split at h
  · exact absurd h (by simp)
  · next hc =>
    push_neg at hc
    injection h with h2
    rw [← h2]
    exact hc

/-- Claim C7: a configured, readable metadata file whose parsed value count
differs from `size_k` makes each loader abort with the offending file's
message; every successfully loaded list has length exactly `size_k` (no
truncated load); and in `main`'s pipeline the abort happens while the cube
is being built, before `shoot_vector`, so no catalog is produced. -/
theorem metadata_wrong_count_fatal :
    (∀ (size_k : ℕ) (l : List ℚ), l.length ≠ size_k →
      read_timestamp size_k (some (some l)) =
        .error "#of lines in TIMESTAMP_FILE is not the same as #of fits files" ∧
      read_exposuretime size_k (some (some l)) =
        .error "#of lines in EXPOSURETIME_FILE is not the same as #of fits files" ∧
      read_psf size_k (some (some l)) =
        .error "#of lines in PSF_FILE is not the same as #of fits files") ∧
    (∀ (size_k : ℕ) (f : MetaFile) (r : List ℚ),
      read_timestamp size_k f = .ok r → r.length = size_k) ∧
    (∀ (size_k : ℕ) (f : MetaFile) (r : List ℚ),
      read_exposuretime size_k f = .ok r → r.length = size_k) ∧
    (∀ (size_k : ℕ) (f : MetaFile) (r : List ℚ),
      read_psf size_k f = .ok r → r.length = size_k) ∧
    (∀ (c : Cube) (ef pf : MetaFile) (n : ℕ) (w : WorkerEnv) (l : List ℚ),
      l.length ≠ c.m_size_k →
      main_run c (some (some l)) ef pf n w =
        .error "#of lines in TIMESTAMP_FILE is not the same as #of fits files") := by
  refine ⟨?_, ?_, ?_, ?_, ?_⟩
  · intro size_k l h
    exact ⟨by simp [read_timestamp, h], by simp [read_exposuretime, h],
           by simp [read_psf, h]⟩
  · intro size_k f r h
    match f with
    | none =>
      simp only [read_timestamp, Except.ok.injEq] at h
      rw [← h, List.length_map, List.length_range]
    | some none => simp [read_timestamp] at h
    | some (some l) =>
      simp only [read_timestamp] at h
      exact loader_ok_length size_k l r _ h
  · intro size_k f r h
    match f with
    | none =>
      simp only [read_exposuretime, Except.ok.injEq] at h
      rw [← h, List.length_map, List.length_range]
    | some none => simp [read_exposuretime] at h
    | some (some l) =>
      simp only [read_exposuretime] at h
      exact loader_ok_length size_k l r _ h
  · intro size_k f r h
    match f with
    | none =>
      simp only [read_psf, Except.ok.injEq] at h
      rw [← h, List.length_map, List.length_range]
    | some none => simp [read_psf] at h
    | some (some l) =>
      simp only [read_psf] at h
      exact loader_ok_length size_k l r _ h
  · intro c ef pf n w l h
    simp only [main_run, read_timestamp, if_pos h]
    rfl

/-- Witness for C7: a 1-line timestamp file against a 2-frame cube aborts
the loader and the whole pipeline, producing no catalog. -/
theorem metadata_wrong_count_fatal_witness :
    read_timestamp 2 (some (some [1])) =
      .error "#of lines in TIMESTAMP_FILE is not the same as #of fits files" ∧
    main_run demo_cube (some (some [1])) none none 1 demo_worker =
      .error "#of lines in TIMESTAMP_FILE is not the same as #of fits files" :=
  ⟨(metadata_wrong_count_fatal.1 2 [1] (by norm_num)).1,
   metadata_wrong_count_fatal.2.2.2.2 demo_cube none none 1 demo_worker [1] (by norm_num [demo_cube])⟩

/-- The ids written by `write_tocsv` count the rows from 0 in storage
order (proof helper). -/
lemma write_tocsv_ids (result : List (VectorXY × DVal × ℚ × ℤ)) :
    (write_tocsv result).map CsvRow.id = List.range result.length := by
  unfold write_tocsv
  rw [List.map_map]
  have hcomp : (CsvRow.id ∘ fun p : ℕ × VectorXY × DVal × ℚ × ℤ =>
      (⟨p.1, p.2.1.x_intercept, p.2.1.y_intercept, p.2.1.x_slope, p.2.1.y_slope,
        p.2.2.1, p.2.2.2.1, p.2.2.2.2⟩ : CsvRow)) = Prod.fst := rfl
  rw [hcomp, List.enum_map_fst]

/-- Claim C8: for every draw count N the emitted catalog has exactly N data
rows, and the `ID` column is exactly `0..N-1` in order (hence each id
appears exactly once), for any worker sampling environment. -/
theorem catalog_rows_ids (c : Cube) (N : ℕ) (w : WorkerEnv) :
    (write_tocsv (shoot_vector c N w)).length = N ∧
    (write_tocsv (shoot_vector c N w)).map CsvRow.id = List.range N := by
  have hlen : (shoot_vector c N w).length = N := by
    simp [shoot_vector]
  refine ⟨?_, ?_⟩
  · simp [write_tocsv, shoot_vector]
  · rw [write_tocsv_ids, hlen]

/-- Bounds of one `uniform_int_distribution(0, hi)` draw (proof helper). -/
lemma uniform_int_bounds (hi : ℤ) (raw : ℕ) (h : 0 ≤ hi) :
    0 ≤ uniform_int 0 hi raw ∧ uniform_int 0 hi raw ≤ hi := by
  have hpos : (0 : ℤ) < hi - 0 + 1 := by omega
  constructor
  · simpa [uniform_int] using Int.emod_nonneg (raw : ℤ) (by omega)
  · have := Int.emod_lt_of_pos (raw : ℤ) hpos
    simp only [uniform_int]
    omega

/-- Claim C9: every trajectory stored by the shooting loop has
integer-valued intercepts, with `x_intercept ∈ {0, …, size_x-1}` and
`y_intercept ∈ {0, …, size_y-1}`: they are drawn from the two integer
uniform distributions and widened to `double`. -/
theorem intercepts_integral_in_range (c : Cube) (N : ℕ) (w : WorkerEnv)
    (hx : 1 ≤ c.m_size_x) (hy : 1 ≤ c.m_size_y) :
    ∀ r ∈ shoot_vector c N w,
      ∃ a b : ℤ, r.1.x_intercept = (a : ℚ) ∧ 0 ≤ a ∧ a < (c.m_size_x : ℤ) ∧
        r.1.y_intercept = (b : ℚ) ∧ 0 ≤ b ∧ b < (c.m_size_y : ℤ) := by
  intro r hr
  simp only [shoot_vector, List.mem_map, List.mem_range] at hr
  obtain ⟨i, _, rfl⟩ := hr
  have hxb := uniform_int_bounds ((c.m_size_x : ℤ) - 1) (w.x_raw i) (by omega)
  have hyb := uniform_int_bounds ((c.m_size_y : ℤ) - 1) (w.y_raw i) (by omega)
  exact ⟨uniform_int 0 ((c.m_size_x : ℤ) - 1) (w.x_raw i),
         uniform_int 0 ((c.m_size_y : ℤ) - 1) (w.y_raw i),
         rfl, hxb.1, by omega, rfl, hyb.1, by omega⟩

/-- Witness for C9: the first draw of a concrete 4×4 cube and worker
environment has integral in-range intercepts. -/
theorem intercepts_integral_in_range_witness :
    ∃ a b : ℤ, (shoot_draw demo_cube demo_worker 0).1.x_intercept = (a : ℚ) ∧
      0 ≤ a ∧ a < (demo_cube.m_size_x : ℤ) ∧
      (shoot_draw demo_cube demo_worker 0).1.y_intercept = (b : ℚ) ∧
      0 ≤ b ∧ b < (demo_cube.m_size_y : ℤ) :=
  intercepts_integral_in_range demo_cube 1 demo_worker
    (by norm_num [demo_cube]) (by norm_num [demo_cube])
    (shoot_draw demo_cube demo_worker 0) (by simp [shoot_vector])

/-! ## Lemmas about size_t wrap-around -/

lemma usub64_exact (tk t0 : ℕ) (hord : t0 ≤ tk)
    (hfit : (tk : ℤ) - (t0 : ℤ) < 2 ^ 64) : usub64 tk t0 = tk - t0 := by
  unfold usub64
  rw [Int.emod_eq_of_lt (by omega) (by omega)]
  omega

lemma toSizeT_of_nonneg (z : ℤ) (h0 : 0 ≤ z) (h1 : z < 2 ^ 64) :
    toSizeT z = z.toNat := by
  unfold toSizeT
  rw [Int.emod_eq_of_lt h0 h1]

lemma toSizeT_of_neg (z : ℤ) (hlow : -(2 ^ 64) ≤ z) (hneg : z < 0) :
    (toSizeT z : ℤ) = 2 ^ 64 + z := by
  unfold toSizeT
  omega

/-- Claim C6 (amended): when the resolved frame's timestamp is at least
frame 0's (and their difference fits in 64 bits), and the rounded
back-projected coordinates are nonnegative (and below 2^64),
`get_rnd_coord` returns frame index exactly 0 and
`x = round(x0 - x_slope·(timestamp(k) - timestamp(0)))`,
`y = round(y0 - y_slope·(timestamp(k) - timestamp(0)))`. When a rounded
back-projection is negative, the conversion to `size_t` wraps instead
(see the counterexample). -/
theorem get_rnd_coord_frame0 (c : Cube) (index : ℕ) (xs ys : ℚ)
    (x0 y0 k tk t0 : ℕ)
    (hres : c.u_rnd_coord index = (x0, y0, k))
    (htk : c.timestamp k = some tk) (ht0 : c.timestamp 0 = some t0)
    (hord : t0 ≤ tk) (hfit : (tk : ℤ) - (t0 : ℤ) < 2 ^ 64)
    (hx0 : 0 ≤ cround ((x0 : ℚ) - xs * ((tk - t0 : ℕ) : ℚ)))
    (hx1 : cround ((x0 : ℚ) - xs * ((tk - t0 : ℕ) : ℚ)) < 2 ^ 64)
    (hy0 : 0 ≤ cround ((y0 : ℚ) - ys * ((tk - t0 : ℕ) : ℚ)))
    (hy1 : cround ((y0 : ℚ) - ys * ((tk - t0 : ℕ) : ℚ)) < 2 ^ 64) :
    c.get_rnd_coord index xs ys =
      some ((cround ((x0 : ℚ) - xs * ((tk - t0 : ℕ) : ℚ))).toNat,
            (cround ((y0 : ℚ) - ys * ((tk - t0 : ℕ) : ℚ))).toNat, 0) := by
  have hu : usub64 tk t0 = tk - t0 := usub64_exact tk t0 hord hfit
  simp only [Cube.get_rnd_coord, hres, htk, ht0, hu,
    toSizeT_of_nonneg _ hx0 hx1, toSizeT_of_nonneg _ hy0 hy1]

/-- Witness for C6: on the concrete cube, index 0 resolves to frame 1 at
`(0, 0)`; with slope `-1` the back-projection to frame 0 is `round(100)`,
giving coordinate `(100, 0, 0)`. -/
theorem get_rnd_coord_frame0_witness :
    Cube.get_rnd_coord demo_cube 0 (-1) 0 = some (100, 0, 0) := by
  have h := get_rnd_coord_frame0 demo_cube 0 (-1) 0 0 0 1 100 0 rfl rfl rfl
    (by norm_num) (by norm_num)
    (by norm_num [cround]) (by norm_num [cround])
    (by norm_num [cround]) (by norm_num [cround])
  rw [h]
  norm_num [cround]
  decide

/-- Counterexample to C6 as stated: on the concrete cube, index 0 with
`x_slope = 1` back-projects to `round(0 - 1·100) = -100`, but the value
returned for `x` is the wrapped `size_t` 2^64 - 100, not the claimed
rounded back-projection. -/
theorem get_rnd_coord_counterexample :
    Cube.get_rnd_coord demo_cube 0 1 0 = some (18446744073709551516, 0, 0) ∧
    cround ((0 : ℚ) - 1 * 100) = -100 ∧
    ((18446744073709551516 : ℕ) : ℤ) ≠ cround ((0 : ℚ) - 1 * 100) := by
  have hc : cround ((0 : ℚ) - 1 * 100) = -100 := by norm_num [cround]
  refine ⟨?_, hc, by rw [hc]; norm_num⟩
  have h100 : usub64 100 0 = 100 := usub64_exact 100 0 (by norm_num) (by norm_num)
  simp only [Cube.get_rnd_coord, demo_cube, Cube.timestamp, h100]
  norm_num [cround, toSizeT]
  decide

/-- Claim C10: `get_rnd_coord` performs no range check; whenever the
rounded back-projected x-position is negative (its magnitude within 2^64),
the conversion to the unsigned `size_t` wraps it to `2^64 + round(...)`,
which exceeds `size_x` (for any cube smaller than that wrapped value), so
the returned coordinate is out of range. -/
theorem get_rnd_coord_wraps_out_of_range (c : Cube) (index : ℕ) (xs ys : ℚ)
    (x0 y0 k tk t0 : ℕ)
    (hres : c.u_rnd_coord index = (x0, y0, k))
    (htk : c.timestamp k = some tk) (ht0 : c.timestamp 0 = some t0)
    (hord : t0 ≤ tk) (hfit : (tk : ℤ) - (t0 : ℤ) < 2 ^ 64)
    (hneg : cround ((x0 : ℚ) - xs * ((tk - t0 : ℕ) : ℚ)) < 0)
    (hlow : -(2 ^ 64) ≤ cround ((x0 : ℚ) - xs * ((tk - t0 : ℕ) : ℚ)))
    (hbig : (c.m_size_x : ℤ) < 2 ^ 64 + cround ((x0 : ℚ) - xs * ((tk - t0 : ℕ) : ℚ))) :
    ∃ x y : ℕ, c.get_rnd_coord index xs ys = some (x, y, 0) ∧
      (x : ℤ) = 2 ^ 64 + cround ((x0 : ℚ) - xs * ((tk - t0 : ℕ) : ℚ)) ∧
      c.m_size_x < x := by
  have hu : usub64 tk t0 = tk - t0 := usub64_exact tk t0 hord hfit
  have hwrap := toSizeT_of_neg _ hlow hneg
  refine ⟨toSizeT (cround ((x0 : ℚ) - xs * ((tk - t0 : ℕ) : ℚ))),
          toSizeT (cround ((y0 : ℚ) - ys * ((tk - t0 : ℕ) : ℚ))), ?_, hwrap, ?_⟩
  · simp only [Cube.get_rnd_coord, hres, htk, ht0, hu]
  · omega

/-- Witness for C10: on the concrete 4×4×2 cube with `x_slope = 2`, the
back-projection `round(0 - 2·100) = -200` wraps to 2^64 - 200, far beyond
`size_x = 4`: the returned coordinate is out of range. -/
theorem get_rnd_coord_wraps_out_of_range_witness :
    ∃ x y : ℕ, Cube.get_rnd_coord demo_cube 0 2 0 = some (x, y, 0) ∧
      (x : ℤ) = 2 ^ 64 + cround ((0 : ℚ) - 2 * ((100 - 0 : ℕ) : ℚ)) ∧
      demo_cube.m_size_x < x :=
  get_rnd_coord_wraps_out_of_range demo_cube 0 2 0 0 0 1 100 0 rfl rfl rfl
    (by norm_num) (by norm_num) (by norm_num [cround])
    (by norm_num [cround]) (by norm_num [cround, demo_cube])

end Median
